import Mathlib

/-!
# Verification of the fetch-a-donut agent (src/app.py, src/config.py)

Shallow embedding of the donut-coupon chat agent.  The agent keeps one
record per conversation session (a state tag plus, once completed, the
issued coupon), evaluates a user story through an external text-generation
service with a static fallback on failure, and issues a coupon code
`PREFIX-CONFERENCE_ID-HASH6-HHMM` where `HASH6` is the first six uppercase
hex characters of the SHA-256 of the sender identifier.

Machine integers are modelled as `Nat` with explicit `% 2^32` where the
source (Python's `hashlib` SHA-256) works on 32-bit words.  The wall clock
(`datetime.now`) and the network (`requests.post`) are inputs: the handler
takes the current hour/minute and the outcome of the service call as
explicit parameters.
-/

namespace Donut

/-! ## config.py -/

def AGENT_NAME : String := "fetch-a-donut"

def COUPON_PREFIX : String := "DONUT"

def CONFERENCE_ID : String := "TREEHACKS12"

def CONFERENCE_NAME : String := "TreeHacks 12"

def CONFERENCE_START_DATE : String := "2026-02-13"

def CONFERENCE_END_DATE : String := "2026-02-15"

def MIN_STORY_LENGTH : Nat := 20

/-! ## SHA-256 (the `hashlib.sha256` used by `_generate_coupon`)

Standard FIPS 180-4 SHA-256 over byte lists, words as `Nat` reduced
`% 2^32`. -/

/-- Right rotation by `n` of a 32-bit word `x < 2^32`. -/
def rotr32 (n x : Nat) : Nat :=
  (x / 2 ^ n) ||| ((x % 2 ^ n) * 2 ^ (32 - n))

def bigSigma0 (x : Nat) : Nat := rotr32 2 x ^^^ rotr32 13 x ^^^ rotr32 22 x

def bigSigma1 (x : Nat) : Nat := rotr32 6 x ^^^ rotr32 11 x ^^^ rotr32 25 x

def smallSigma0 (x : Nat) : Nat := rotr32 7 x ^^^ rotr32 18 x ^^^ (x / 2 ^ 3)

def smallSigma1 (x : Nat) : Nat := rotr32 17 x ^^^ rotr32 19 x ^^^ (x / 2 ^ 10)

def shaCh (x y z : Nat) : Nat := (x &&& y) ^^^ ((x ^^^ 0xFFFFFFFF) &&& z)

def shaMaj (x y z : Nat) : Nat := (x &&& y) ^^^ (x &&& z) ^^^ (y &&& z)

/-- The 64 SHA-256 round constants, in decimal. -/
def shaK : List Nat :=
  [1116352408, 1899447441, 3049323471, 3921009573, 961987163,
   1508970993, 2453635748, 2870763221, 3624381080, 310598401,
   607225278, 1426881987, 1925078388, 2162078206, 2614888103,
   3248222580, 3835390401, 4022224774, 264347078, 604807628,
   770255983, 1249150122, 1555081692, 1996064986, 2554220882,
   2821834349, 2952996808, 3210313671, 3336571891, 3584528711,
   113926993, 338241895, 666307205, 773529912, 1294757372,
   1396182291, 1695183700, 1986661051, 2177026350, 2456956037,
   2730485921, 2820302411, 3259730800, 3345764771, 3516065817,
   3600352804, 4094571909, 275423344, 430227734, 506948616,
   659060556, 883997877, 958139571, 1322822218, 1537002063,
   1747873779, 1955562222, 2024104815, 2227730452, 2361852424,
   2428436474, 2756734187, 3204031479, 3329325298]

/-- Hash state: the eight 32-bit working variables. -/
structure ShaState where
  a : Nat
  b : Nat
  c : Nat
  d : Nat
  e : Nat
  f : Nat
  g : Nat
  h : Nat

def shaInit : ShaState :=
  ⟨1779033703, 3144134277, 1013904242, 2773480762,
   1359893119, 2600822924, 528734635, 1541459225⟩

/-- One step of extending the message schedule: append
`w[i-16] + sigma0 w[i-15] + w[i-7] + sigma1 w[i-2]` (mod 2^32). -/
def extendStep (w : List Nat) : List Nat :=
  let i := w.length
  w ++ [(w.getD (i - 16) 0 + smallSigma0 (w.getD (i - 15) 0) +
         w.getD (i - 7) 0 + smallSigma1 (w.getD (i - 2) 0)) % 2 ^ 32]

/-- Extend the 16 words of a block to the full 64-word schedule. -/
def schedule (w16 : List Nat) : List Nat :=
  (List.range 48).foldl (fun w _ => extendStep w) w16

/-- One compression round with key constant `k` and schedule word `w`. -/
def shaRound (s : ShaState) (kw : Nat × Nat) : ShaState :=
  let t1 := (s.h + bigSigma1 s.e + shaCh s.e s.f s.g + kw.1 + kw.2) % 2 ^ 32
  let t2 := (bigSigma0 s.a + shaMaj s.a s.b s.c) % 2 ^ 32
  ⟨(t1 + t2) % 2 ^ 32, s.a, s.b, s.c, (s.d + t1) % 2 ^ 32, s.e, s.f, s.g⟩

/-- Read a 4-byte big-endian word from the block bytes. -/
def word32At (block : List Nat) (i : Nat) : Nat :=
  block.getD (4 * i) 0 * 2 ^ 24 + block.getD (4 * i + 1) 0 * 2 ^ 16 +
  block.getD (4 * i + 2) 0 * 2 ^ 8 + block.getD (4 * i + 3) 0

/-- Compress one 64-byte block into the running hash state. -/
def compress (s : ShaState) (block : List Nat) : ShaState :=
  let w := schedule ((List.range 16).map (word32At block))
  let t := (shaK.zip w).foldl shaRound s
  ⟨(s.a + t.a) % 2 ^ 32, (s.b + t.b) % 2 ^ 32, (s.c + t.c) % 2 ^ 32,
   (s.d + t.d) % 2 ^ 32, (s.e + t.e) % 2 ^ 32, (s.f + t.f) % 2 ^ 32,
   (s.g + t.g) % 2 ^ 32, (s.h + t.h) % 2 ^ 32⟩

/-- SHA-256 padding: append `0x80`, zeros, and the 8-byte big-endian bit
length, reaching a multiple of 64 bytes. -/
def shaPad (msg : List Nat) : List Nat :=
  let L := msg.length
  let zeros := (119 - L % 64) % 64
  msg ++ [0x80] ++ List.replicate zeros 0 ++
    (List.range 8).map (fun i => (8 * L) / 2 ^ (8 * (7 - i)) % 256)

/-- Split a byte list into 64-byte chunks.  The recursion is driven by a
fuel bound, so the kernel can evaluate it; each step consumes at least one
byte, so `l.length` steps always suffice. -/
def chunks64Go : Nat → List Nat → List (List Nat)
  | 0, _ => []
  | fuel + 1, l =>
    if l.isEmpty then []
    else l.take 64 :: chunks64Go fuel (l.drop 64)

def chunks64 (l : List Nat) : List (List Nat) := chunks64Go l.length l

/-- The final hash state after absorbing the whole padded message. -/
def shaFinal (msg : List Nat) : ShaState :=
  (chunks64 (shaPad msg)).foldl compress shaInit

/-- The four big-endian bytes of a 32-bit word. -/
def wordBytes (w : Nat) : List Nat :=
  [w / 2 ^ 24 % 256, w / 2 ^ 16 % 256, w / 2 ^ 8 % 256, w % 256]

/-- The 32 digest bytes, big-endian per word. -/
def digestBytes (msg : List Nat) : List Nat :=
  let s := shaFinal msg
  wordBytes s.a ++ wordBytes s.b ++ wordBytes s.c ++ wordBytes s.d ++
  wordBytes s.e ++ wordBytes s.f ++ wordBytes s.g ++ wordBytes s.h

/-- Lowercase hex digit for a nibble, as Python's `hexdigest` prints it. -/
def hexChar (n : Nat) : Char :=
  if n < 10 then Char.ofNat (48 + n) else Char.ofNat (87 + n)

/-- The two lowercase hex characters of one byte. -/
def byteHexChars (b : Nat) : List Char := [hexChar (b / 16), hexChar (b % 16)]

/-- The lowercase hex digest characters (Python `hexdigest()`). -/
def hexdigestChars (msg : List Nat) : List Char :=
  (digestBytes msg).foldr (fun b acc => byteHexChars b ++ acc) []

/-- UTF-8 encoding of one character (Python `str.encode`). -/
def utf8Char (c : Char) : List Nat :=
  let n := c.toNat
  if n < 0x80 then [n]
  else if n < 0x800 then [0xC0 + n / 0x40, 0x80 + n % 0x40]
  else if n < 0x10000 then
    [0xE0 + n / 0x1000, 0x80 + n / 0x40 % 0x40, 0x80 + n % 0x40]
  else
    [0xF0 + n / 0x40000, 0x80 + n / 0x1000 % 0x40,
     0x80 + n / 0x40 % 0x40, 0x80 + n % 0x40]

/-- UTF-8 bytes of a string (Python `str.encode()`). -/
def strBytes (s : String) : List Nat := s.data.flatMap utf8Char

/-! ## app.py: coupon generation -/

/-- Hash segment of the coupon:
`hashlib.sha256(sender.encode()).hexdigest()[:6].upper()` (app.py:82). -/
def userHash (sender : String) : String :=
  String.mk (((hexdigestChars (strBytes sender)).take 6).map Char.toUpper)

/-- Zero-padded two-digit field, as `strftime` prints hour and minute. -/
def pad2 (n : Nat) : String := if n < 10 then "0" ++ toString n else toString n

/-- The `strftime("%H%M")` stamp from the current hour and minute. -/
def hhmmStr (hh mm : Nat) : String := pad2 hh ++ pad2 mm

/-- Coupon synthesis, `_generate_coupon` (app.py:81–84); the wall clock
(`datetime.now(UTC)`) enters as the current hour `hh` and minute `mm`. -/
def generateCoupon (sender : String) (hh mm : Nat) : String :=
  COUPON_PREFIX ++ "-" ++ CONFERENCE_ID ++ "-" ++ userHash sender ++ "-" ++
    hhmmStr hh mm

/-! ## app.py: chat messages and session records -/

/-- One content item of a chat message.  The handler reads only
`TextContent` items; `EndSessionContent` is only ever written by it, and
any other content kind is ignored. -/
inductive ContentItem where
  | text (t : String)
  | endSession
  | other
deriving DecidableEq

/-- A chat message is its content list.  The `timestamp` and `msg_id`
fields are fresh environment values (`datetime.now`, `uuid4`) that the
handler never reads, so they are omitted. -/
structure ChatMsg where
  content : List ContentItem
deriving DecidableEq

/-- Outbound message construction, `_make_chat` (app.py:70–78). -/
def makeChat (text : String) (endSession : Bool := false) : ChatMsg :=
  ⟨[ContentItem.text text] ++
    if endSession then [ContentItem.endSession] else []⟩

/-- The stored session record, the dict `{"state": ..., "coupon": ...}`:
the `coupon` key is absent (`none`) until completion. -/
structure SessionData where
  state : String
  coupon : Option String := none
deriving DecidableEq

/-! ## app.py: story evaluation -/

/-- The parsed JSON object of a successful service response; either key
may be absent, in which case `result.get` falls back to its default. -/
structure EvalDict where
  score : Option Int := none
  comment : Option String := none
deriving DecidableEq

/-- Outcome of the network interaction inside `_evaluate_story`:
`failure` is any raised exception (timeout, connection error, non-2xx
status, body that is not the expected JSON), `success` carries the parsed
JSON object. -/
inductive ServiceOutcome where
  | failure
  | success (d : EvalDict)
deriving DecidableEq

/-- Story evaluation, `_evaluate_story` (app.py:87–123): the request
construction and transport are the environment (`outcome`); on any
exception the static fallback is returned. -/
def evaluateStory (story : String) (outcome : ServiceOutcome) : EvalDict :=
  match story, outcome with
  | _, .failure =>
      { score := some 7, comment := some "Great story! Thanks for sharing." }
  | _, .success d => d

/-! ## app.py: the message handler -/

/-- The welcome text (app.py:56–67). -/
def WELCOME_MESSAGE : String :=
  "Welcome to Fetch-a-Donut at " ++ CONFERENCE_NAME ++ "! " ++
  "I'm your friendly donut fairy!\n\n" ++
  "Before I can grant you a magical donut coupon, I need to hear your " ++
  "most epic donut story! Tell me about:\n\n" ++
  "- Your craziest donut adventure\n" ++
  "- Your dream donut combination\n" ++
  "- A time a donut saved your day\n" ++
  "- Or any donut-related tale!\n\n" ++
  "The more creative and fun your story, the better your rating! " ++
  "Go ahead, share your story now."

/-- Reply text of the completed-state re-query branch (app.py:160–162). -/
def completedText (coupon : String) : String :=
  "You've already received your donut coupon this session!\n\n" ++
  "Your coupon code: " ++ coupon ++ "\n\n" ++
  "Show this code to any food vendor at " ++ CONFERENCE_NAME ++
  " to claim your free donut."

/-- Reply text of the too-short retry branch (app.py:175–177). -/
def tooShortText : String :=
  "That's a bit short! Tell me a real donut story " ++
  "(at least " ++ toString MIN_STORY_LENGTH ++ " characters). I'm all ears!"

/-- Reply text of the completion branch (app.py:199–204). -/
def completionText (comment coupon : String) (score : Int) : String :=
  comment ++ "\n\n" ++
  "Your Coupon Code: " ++ coupon ++ "\n\n" ++
  "This gets you a FREE donut of your choice!\n" ++
  "Show this code to any food vendor at " ++ CONFERENCE_NAME ++
  " (" ++ CONFERENCE_START_DATE ++ " - " ++ CONFERENCE_END_DATE ++ ").\n" ++
  "Story Rating: " ++ toString score ++ "/10"

/-- Python's `str.strip()`: drop whitespace from both ends.  (Python
strips the Unicode whitespace class; the text handled here only meets
ASCII whitespace, for which `Char.isWhitespace` agrees.) -/
def pyStrip (s : String) : String :=
  String.mk
    (((s.data.dropWhile Char.isWhitespace).reverse.dropWhile
        Char.isWhitespace).reverse)

/-- Text extraction (app.py:144–149): concatenate the text of the
`TextContent` items in content order, then strip. -/
def extractText (content : List ContentItem) : String :=
  pyStrip (content.foldl (fun acc item =>
    match item with
    | ContentItem.text t => acc ++ t
    | _ => acc) "")

/-- What one invocation of `handle_message` does beyond the unconditional
`ChatAcknowledgement`: the session record stored afterwards and the one
chat reply sent. -/
structure HandlerResult where
  stored : Option SessionData
  reply : ChatMsg
deriving DecidableEq

/-- The message handler, `handle_message` (app.py:134–213), with the
environment made explicit: the record `ctx.storage.get` returns for this
session, the inbound message, the sender identifier, the outcome of the
text-generation call, and the current hour and minute. -/
def handleMessage (sessionData : Option SessionData) (msg : ChatMsg)
    (sender : String) (svc : ServiceOutcome) (hh mm : Nat) : HandlerResult :=
  let text := extractText msg.content
  match sessionData with
  | some sd =>
    if sd.state = "completed" then
      { stored := some sd,
        reply := makeChat (completedText (sd.coupon.getD "N/A")) true }
    else if sd.state = "awaiting_story" then
      if text.length < MIN_STORY_LENGTH then
        { stored := some sd, reply := makeChat tooShortText }
      else
        let result := evaluateStory text svc
        let score := result.score.getD 7
        let comment := result.comment.getD "Nice story!"
        let coupon := generateCoupon sender hh mm
        { stored := some { state := "completed", coupon := some coupon },
          reply := makeChat (completionText comment coupon score) true }
    else
      { stored := some { state := "awaiting_story" },
        reply := makeChat WELCOME_MESSAGE }
  | none =>
    { stored := some { state := "awaiting_story" },
      reply := makeChat WELCOME_MESSAGE }

/-- Whether an outbound message carries the `EndSessionContent` marker. -/
def hasEndSession (m : ChatMsg) : Bool :=
  m.content.any fun item =>
    match item with
    | ContentItem.endSession => true
    | _ => false

/-- The text of the `TextContent` items of a content list, in order. -/
def textsOf (content : List ContentItem) : List String :=
  content.filterMap fun item =>
    match item with
    | ContentItem.text t => some t
    | _ => none

/-- Concatenation of a list of strings, in order. -/
def concatTexts (l : List String) : String :=
  l.foldr (fun s acc => s ++ acc) ""

/-- An uppercase hexadecimal character. -/
def isUpperHex (c : Char) : Bool := c.isDigit || ('A' ≤ c && c ≤ 'F')

/-! ## Helper lemmas -/

theorem hasEndSession_makeChat (t : String) (b : Bool) :
    hasEndSession (makeChat t b) = b := by
  cases b <;> rfl

theorem digestBytes_length (msg : List Nat) : (digestBytes msg).length = 32 := by
  simp [digestBytes, wordBytes]

theorem digestBytes_lt (msg : List Nat) : ∀ b ∈ digestBytes msg, b < 256 := by
  intro b hb
  simp only [digestBytes, wordBytes, List.mem_append, List.mem_cons,
    List.not_mem_nil, or_false] at hb
  rcases hb with ((h | h | h | h) | (h | h | h | h) | (h | h | h | h) |
    (h | h | h | h)) | ((h | h | h | h) | (h | h | h | h) |
    (h | h | h | h) | (h | h | h | h)) <;> omega

theorem foldr_byteHex_length (l : List Nat) :
    (l.foldr (fun b acc => byteHexChars b ++ acc) []).length = 2 * l.length := by
  induction l with
  | nil => rfl
  | cons b t ih =>
    simp only [List.foldr_cons, List.length_append, ih]
    rw [show (byteHexChars b).length = 2 from rfl, List.length_cons]
    omega

theorem hexdigestChars_length (msg : List Nat) :
    (hexdigestChars msg).length = 64 := by
  rw [hexdigestChars, foldr_byteHex_length, digestBytes_length]

theorem foldr_byteHex_mem (l : List Nat) (hb : ∀ b ∈ l, b < 256) :
    ∀ c ∈ l.foldr (fun b acc => byteHexChars b ++ acc) [],
      ∃ n, n < 16 ∧ c = hexChar n := by
  induction l with
  | nil => simp
  | cons b t ih =>
    intro c hc
    have hb' : b < 256 := hb b (by simp)
    simp only [List.foldr_cons, byteHexChars, List.cons_append,
      List.nil_append, List.mem_cons] at hc
    rcases hc with rfl | rfl | hc
    · exact ⟨b / 16, by omega, rfl⟩
    · exact ⟨b % 16, by omega, rfl⟩
    · exact ih (fun x hx => hb x (List.mem_cons_of_mem _ hx)) c hc

theorem hexdigestChars_mem (msg : List Nat) :
    ∀ c ∈ hexdigestChars msg, ∃ n, n < 16 ∧ c = hexChar n := by
  rw [hexdigestChars]
  exact foldr_byteHex_mem _ (digestBytes_lt msg)

theorem upperHex_hexChar : ∀ n, n < 16 →
    isUpperHex (Char.toUpper (hexChar n)) = true := by
  intro n h
  interval_cases n <;> decide

theorem userHash_length (sender : String) : (userHash sender).length = 6 := by
  show (((hexdigestChars (strBytes sender)).take 6).map Char.toUpper).length = 6
  rw [List.length_map, List.length_take, hexdigestChars_length]
  decide

theorem userHash_upperHex (sender : String) :
    ∀ c ∈ (userHash sender).data, isUpperHex c = true := by
  intro c hc
  have hc' : c ∈ ((hexdigestChars (strBytes sender)).take 6).map Char.toUpper := hc
  rw [List.mem_map] at hc'
  obtain ⟨c', hc', rfl⟩ := hc'
  obtain ⟨n, hn, rfl⟩ :=
    hexdigestChars_mem (strBytes sender) c' (List.take_subset 6 _ hc')
  exact upperHex_hexChar n hn

theorem generateCoupon_ne_empty (sender : String) (hh mm : Nat) :
    generateCoupon sender hh mm ≠ "" := by
  intro h
  have hlen : (generateCoupon sender hh mm).length = 0 := by rw [h]; rfl
  rw [generateCoupon] at hlen
  simp only [String.length_append] at hlen
  have h5 : (COUPON_PREFIX).length = 5 := rfl
  omega

theorem foldl_text_append (content : List ContentItem) (acc : String) :
    content.foldl (fun acc item =>
      match item with
      | ContentItem.text t => acc ++ t
      | _ => acc) acc = acc ++ concatTexts (textsOf content) := by
  induction content generalizing acc with
  | nil => simp [textsOf, concatTexts]
  | cons item rest ih =>
    cases item with
    | text t =>
      simp only [List.foldl_cons, textsOf, List.filterMap_cons, concatTexts,
        List.foldr_cons, ih]
      rw [String.append_assoc]
    | endSession => simpa [textsOf, List.filterMap_cons] using ih acc
    | other => simpa [textsOf, List.filterMap_cons] using ih acc

theorem extractText_eq_concat (content : List ContentItem) :
    extractText content = pyStrip (concatTexts (textsOf content)) := by
  rw [extractText, foldl_text_append]
  congr 1

theorem handleMessage_completed (sd : SessionData) (msg : ChatMsg)
    (sender : String) (svc : ServiceOutcome) (hh mm : Nat)
    (h : sd.state = "completed") :
    handleMessage (some sd) msg sender svc hh mm =
      ⟨some sd, makeChat (completedText (sd.coupon.getD "N/A")) true⟩ := by
  simp [handleMessage, h]

theorem handleMessage_tooShort (sd : SessionData) (msg : ChatMsg)
    (sender : String) (svc : ServiceOutcome) (hh mm : Nat)
    (h1 : sd.state = "awaiting_story")
    (h2 : (extractText msg.content).length < MIN_STORY_LENGTH) :
    handleMessage (some sd) msg sender svc hh mm =
      ⟨some sd, makeChat tooShortText⟩ := by
  simp [handleMessage, h1, h2]

theorem handleMessage_complete (sd : SessionData) (msg : ChatMsg)
    (sender : String) (svc : ServiceOutcome) (hh mm : Nat)
    (h1 : sd.state = "awaiting_story")
    (h2 : MIN_STORY_LENGTH ≤ (extractText msg.content).length) :
    handleMessage (some sd) msg sender svc hh mm =
      ⟨some ⟨"completed", some (generateCoupon sender hh mm)⟩,
       makeChat (completionText
         ((evaluateStory (extractText msg.content) svc).comment.getD "Nice story!")
         (generateCoupon sender hh mm)
         ((evaluateStory (extractText msg.content) svc).score.getD 7)) true⟩ := by
  simp [handleMessage, h1, Nat.not_lt.mpr h2]

theorem handleMessage_new (msg : ChatMsg) (sender : String)
    (svc : ServiceOutcome) (hh mm : Nat) :
    handleMessage none msg sender svc hh mm =
      ⟨some ⟨"awaiting_story", none⟩, makeChat WELCOME_MESSAGE⟩ := rfl

theorem handleMessage_other (sd : SessionData) (msg : ChatMsg)
    (sender : String) (svc : ServiceOutcome) (hh mm : Nat)
    (h1 : ¬ sd.state = "completed") (h2 : ¬ sd.state = "awaiting_story") :
    handleMessage (some sd) msg sender svc hh mm =
      ⟨some ⟨"awaiting_story", none⟩, makeChat WELCOME_MESSAGE⟩ := by
  simp [handleMessage, h1, h2]

theorem completionText_head (comment coupon : String) (score : Int) :
    ∃ rest, completionText comment coupon score = comment ++ rest := by
  unfold completionText
  exact ⟨_, by simp only [String.append_assoc]; rfl⟩

set_option maxRecDepth 8000 in
/-- Sanity check of the SHA-256 embedding against the standard test
vector: the coupon hash segment computed for the string "abc" matches
`hashlib.sha256(b"abc").hexdigest()[:6].upper()`. -/
theorem userHash_testVector : userHash "abc" = "BA7816" := by decide

/-! ## Claims -/

/-- C1: for every session whose stored record is `completed` with coupon
`c`, handling any further inbound message re-emits exactly `c` with the
closing text and the end marker, leaves the stored record unchanged, and
the next message after that re-emits the very same coupon again. -/
theorem completed_requery (sd : SessionData) (msg msg2 : ChatMsg)
    (sender sender2 : String) (svc svc2 : ServiceOutcome)
    (hh mm hh2 mm2 : Nat) (c : String)
    (hstate : sd.state = "completed") (hcoupon : sd.coupon = some c) :
    (handleMessage (some sd) msg sender svc hh mm).stored = some sd ∧
    (handleMessage (some sd) msg sender svc hh mm).reply =
      makeChat (completedText c) true ∧
    (handleMessage (handleMessage (some sd) msg sender svc hh mm).stored
        msg2 sender2 svc2 hh2 mm2).reply = makeChat (completedText c) true := by
  have h1 := handleMessage_completed sd msg sender svc hh mm hstate
  have h2 := handleMessage_completed sd msg2 sender2 svc2 hh2 mm2 hstate
  refine ⟨by rw [h1], by rw [h1, hcoupon]; rfl, ?_⟩
  rw [h1]
  show (handleMessage (some sd) msg2 sender2 svc2 hh2 mm2).reply =
    makeChat (completedText c) true
  rw [h2, hcoupon]
  rfl

/-- C1 witness: a concrete completed session, queried twice more. -/
theorem completed_requery_witness :
    (handleMessage (some ⟨"completed", some "C0DE"⟩)
        ⟨[ContentItem.text "hi"]⟩ "agent1" ServiceOutcome.failure 10 30).stored =
      some ⟨"completed", some "C0DE"⟩ ∧
    (handleMessage (some ⟨"completed", some "C0DE"⟩)
        ⟨[ContentItem.text "hi"]⟩ "agent1" ServiceOutcome.failure 10 30).reply =
      makeChat (completedText "C0DE") true ∧
    (handleMessage
        (handleMessage (some ⟨"completed", some "C0DE"⟩)
          ⟨[ContentItem.text "hi"]⟩ "agent1" ServiceOutcome.failure 10 30).stored
        ⟨[ContentItem.text "again"]⟩ "agent1" ServiceOutcome.failure 10 31).reply =
      makeChat (completedText "C0DE") true :=
  completed_requery ⟨"completed", some "C0DE"⟩ ⟨[ContentItem.text "hi"]⟩
    ⟨[ContentItem.text "again"]⟩ "agent1" "agent1" ServiceOutcome.failure
    ServiceOutcome.failure 10 30 10 31 "C0DE" rfl rfl

/-- C2: the coupon has the form `PREFIX-CONFERENCE_ID-HASH6-HHMM`, where
the hash segment is the first 6 characters of the SHA-256 hex digest of
the sender, uppercased — exactly 6 uppercase hex characters — and two
generations for the same sender in the same minute are identical. -/
theorem coupon_format (sender : String) (hh mm hh2 mm2 : Nat)
    (h1 : hh = hh2) (h2 : mm = mm2) :
    generateCoupon sender hh mm =
      COUPON_PREFIX ++ "-" ++ CONFERENCE_ID ++ "-" ++ userHash sender ++
        "-" ++ hhmmStr hh mm ∧
    userHash sender =
      String.mk (((hexdigestChars (strBytes sender)).take 6).map Char.toUpper) ∧
    (userHash sender).length = 6 ∧
    (∀ c ∈ (userHash sender).data, isUpperHex c = true) ∧
    generateCoupon sender hh mm = generateCoupon sender hh2 mm2 := by
  subst h1
  subst h2
  exact ⟨rfl, rfl, userHash_length sender, userHash_upperHex sender, rfl⟩

/-- C2 witness at a concrete sender and minute. -/
theorem coupon_format_witness :
    generateCoupon "agent1" 10 30 =
      COUPON_PREFIX ++ "-" ++ CONFERENCE_ID ++ "-" ++ userHash "agent1" ++
        "-" ++ hhmmStr 10 30 ∧
    userHash "agent1" =
      String.mk (((hexdigestChars (strBytes "agent1")).take 6).map Char.toUpper) ∧
    (userHash "agent1").length = 6 ∧
    (∀ c ∈ (userHash "agent1").data, isUpperHex c = true) ∧
    generateCoupon "agent1" 10 30 = generateCoupon "agent1" 10 30 :=
  coupon_format "agent1" 10 30 10 30 rfl rfl

/-- C3: in the awaiting-input state, a message whose extracted text is
shorter than `MIN_STORY_LENGTH` gets the retry prompt, leaves the stored
record unchanged (no coupon issued or stored), and the result does not
depend on the service outcome — the Response Generator is not consulted. -/
theorem short_story_no_transition (sd : SessionData) (msg : ChatMsg)
    (sender : String) (svc svc2 : ServiceOutcome) (hh mm : Nat)
    (h1 : sd.state = "awaiting_story")
    (h2 : (extractText msg.content).length < MIN_STORY_LENGTH) :
    handleMessage (some sd) msg sender svc hh mm =
      ⟨some sd, makeChat tooShortText⟩ ∧
    handleMessage (some sd) msg sender svc hh mm =
      handleMessage (some sd) msg sender svc2 hh mm := by
  have ha := handleMessage_tooShort sd msg sender svc hh mm h1 h2
  have hb := handleMessage_tooShort sd msg sender svc2 hh mm h1 h2
  exact ⟨ha, ha.trans hb.symm⟩

/-- C3 witness: a five-character story in the awaiting state, compared
across two different service outcomes. -/
theorem short_story_no_transition_witness :
    handleMessage (some ⟨"awaiting_story", none⟩) ⟨[ContentItem.text "donut"]⟩
        "agent1" ServiceOutcome.failure 10 30 =
      ⟨some ⟨"awaiting_story", none⟩, makeChat tooShortText⟩ ∧
    handleMessage (some ⟨"awaiting_story", none⟩) ⟨[ContentItem.text "donut"]⟩
        "agent1" ServiceOutcome.failure 10 30 =
      handleMessage (some ⟨"awaiting_story", none⟩) ⟨[ContentItem.text "donut"]⟩
        "agent1" (ServiceOutcome.success ⟨some 3, some "x"⟩) 10 30 :=
  short_story_no_transition ⟨"awaiting_story", none⟩ ⟨[ContentItem.text "donut"]⟩
    "agent1" ServiceOutcome.failure (ServiceOutcome.success ⟨some 3, some "x"⟩)
    10 30 rfl (by decide)

/-- C4: on any service failure the evaluator returns the fixed fallback
value, and the session still completes — the coupon is stored with state
`completed`, the reply carries the end marker, and the fallback comment
opens the outbound text verbatim. -/
theorem service_failure_fallback (sd : SessionData) (msg : ChatMsg)
    (sender : String) (hh mm : Nat)
    (h1 : sd.state = "awaiting_story")
    (h2 : MIN_STORY_LENGTH ≤ (extractText msg.content).length) :
    evaluateStory (extractText msg.content) ServiceOutcome.failure =
      ⟨some 7, some "Great story! Thanks for sharing."⟩ ∧
    (handleMessage (some sd) msg sender ServiceOutcome.failure hh mm).stored =
      some ⟨"completed", some (generateCoupon sender hh mm)⟩ ∧
    (handleMessage (some sd) msg sender ServiceOutcome.failure hh mm).reply =
      makeChat (completionText "Great story! Thanks for sharing."
        (generateCoupon sender hh mm) 7) true ∧
    (∃ rest, completionText "Great story! Thanks for sharing."
        (generateCoupon sender hh mm) 7 =
      "Great story! Thanks for sharing." ++ rest) := by
  have h := handleMessage_complete sd msg sender ServiceOutcome.failure hh mm h1 h2
  exact ⟨rfl, by rw [h], by rw [h]; rfl,
    completionText_head "Great story! Thanks for sharing." (generateCoupon sender hh mm) 7⟩

/-- C4 witness: a 25-character story with a failing service call. -/
theorem service_failure_fallback_witness :
    evaluateStory (extractText [ContentItem.text "aaaaaaaaaaaaaaaaaaaaaaaaa"])
        ServiceOutcome.failure =
      ⟨some 7, some "Great story! Thanks for sharing."⟩ ∧
    (handleMessage (some ⟨"awaiting_story", none⟩)
        ⟨[ContentItem.text "aaaaaaaaaaaaaaaaaaaaaaaaa"]⟩ "agent1"
        ServiceOutcome.failure 10 30).stored =
      some ⟨"completed", some (generateCoupon "agent1" 10 30)⟩ ∧
    (handleMessage (some ⟨"awaiting_story", none⟩)
        ⟨[ContentItem.text "aaaaaaaaaaaaaaaaaaaaaaaaa"]⟩ "agent1"
        ServiceOutcome.failure 10 30).reply =
      makeChat (completionText "Great story! Thanks for sharing."
        (generateCoupon "agent1" 10 30) 7) true ∧
    (∃ rest, completionText "Great story! Thanks for sharing."
        (generateCoupon "agent1" 10 30) 7 =
      "Great story! Thanks for sharing." ++ rest) :=
  service_failure_fallback ⟨"awaiting_story", none⟩
    ⟨[ContentItem.text "aaaaaaaaaaaaaaaaaaaaaaaaa"]⟩ "agent1" 10 30 rfl (by decide)

/-- C5: the completed-coupon invariant.  If every stored completed record
carries a non-empty coupon, then so does the record stored after handling
any message (in particular the coupon written at completion is non-empty),
and handling never modifies the record of a session already completed. -/
theorem completed_coupon_invariant (st : Option SessionData) (msg : ChatMsg)
    (sender : String) (svc : ServiceOutcome) (hh mm : Nat)
    (hinv : ∀ sd, st = some sd → sd.state = "completed" →
      ∃ c, sd.coupon = some c ∧ c ≠ "") :
    (∀ sd', (handleMessage st msg sender svc hh mm).stored = some sd' →
      sd'.state = "completed" → ∃ c, sd'.coupon = some c ∧ c ≠ "") ∧
    (∀ sd, st = some sd → sd.state = "completed" →
      (handleMessage st msg sender svc hh mm).stored = st) := by
  cases st with
  | none =>
    rw [handleMessage_new]
    refine ⟨?_, ?_⟩
    · intro sd' h' hs
      cases h'
      simp at hs
    · intro sd h
      cases h
  | some sd =>
    by_cases hc : sd.state = "completed"
    · rw [handleMessage_completed sd msg sender svc hh mm hc]
      refine ⟨?_, ?_⟩
      · intro sd' h' hs
        cases h'
        exact hinv sd rfl hs
      · intro sd2 h2 _
        rfl
    · by_cases ha : sd.state = "awaiting_story"
      · by_cases hlen : (extractText msg.content).length < MIN_STORY_LENGTH
        · rw [handleMessage_tooShort sd msg sender svc hh mm ha hlen]
          refine ⟨?_, ?_⟩
          · intro sd' h' hs
            cases h'
            exact hinv sd rfl hs
          · intro sd2 h2 hcomp
            cases h2
            exact absurd hcomp hc
        · rw [handleMessage_complete sd msg sender svc hh mm ha (Nat.not_lt.mp hlen)]
          refine ⟨?_, ?_⟩
          · intro sd' h' _
            cases h'
            exact ⟨generateCoupon sender hh mm, rfl,
              generateCoupon_ne_empty sender hh mm⟩
          · intro sd2 h2 hcomp
            cases h2
            exact absurd hcomp hc
      · rw [handleMessage_other sd msg sender svc hh mm hc ha]
        refine ⟨?_, ?_⟩
        · intro sd' h' hs
          cases h'
          simp at hs
        · intro sd2 h2 hcomp
          cases h2
          exact absurd hcomp hc

/-- C5 witness: a concrete completed session with a non-empty coupon. -/
theorem completed_coupon_invariant_witness :
    (∀ sd', (handleMessage (some ⟨"completed", some "C0DE"⟩)
        ⟨[ContentItem.text "hi"]⟩ "agent1" ServiceOutcome.failure 10 30).stored =
          some sd' →
      sd'.state = "completed" → ∃ c, sd'.coupon = some c ∧ c ≠ "") ∧
    (∀ sd, (some ⟨"completed", some "C0DE"⟩ : Option SessionData) = some sd →
      sd.state = "completed" →
      (handleMessage (some ⟨"completed", some "C0DE"⟩)
        ⟨[ContentItem.text "hi"]⟩ "agent1" ServiceOutcome.failure 10 30).stored =
        some ⟨"completed", some "C0DE"⟩) :=
  completed_coupon_invariant (some ⟨"completed", some "C0DE"⟩)
    ⟨[ContentItem.text "hi"]⟩ "agent1" ServiceOutcome.failure 10 30
    (fun sd h hs => by
      cases h
      exact ⟨"C0DE", rfl, by decide⟩)

/-- C6: a message for a session with no stored record gets the welcome
prompt with no end marker, and an awaiting-input record with no coupon is
stored. -/
theorem new_session_welcome (msg : ChatMsg) (sender : String)
    (svc : ServiceOutcome) (hh mm : Nat) :
    handleMessage none msg sender svc hh mm =
      ⟨some ⟨"awaiting_story", none⟩, makeChat WELCOME_MESSAGE⟩ ∧
    hasEndSession (handleMessage none msg sender svc hh mm).reply = false :=
  ⟨rfl, rfl⟩

/-- C7 counterexample: a service response whose body parses to score 15 is
consumed as 15 by the handler's lookup — outside 1–10 — and the handler
formats that score into the outbound completion message. -/
theorem score_range_counterexample :
    (evaluateStory "a donut story"
        (ServiceOutcome.success ⟨some 15, some "Wow!"⟩)).score.getD 7 = 15 ∧
    ¬ ((evaluateStory "a donut story"
        (ServiceOutcome.success ⟨some 15, some "Wow!"⟩)).score.getD 7 ≤ 10) ∧
    (handleMessage (some ⟨"awaiting_story", none⟩)
        ⟨[ContentItem.text "aaaaaaaaaaaaaaaaaaaaaaaaa"]⟩ "agent1"
        (ServiceOutcome.success ⟨some 15, some "Wow!"⟩) 10 30).reply =
      makeChat (completionText "Wow!" (generateCoupon "agent1" 10 30) 15) true :=
  ⟨rfl, by decide,
    by
      rw [handleMessage_complete ⟨"awaiting_story", none⟩
        ⟨[ContentItem.text "aaaaaaaaaaaaaaaaaaaaaaaaa"]⟩ "agent1"
        (ServiceOutcome.success ⟨some 15, some "Wow!"⟩) 10 30 rfl (by decide)]
      rfl⟩

/-- C7 amended: the consumed score is the service-supplied integer when
one is present and 7 otherwise; it lies within 1–10 whenever every
service-supplied score does — in particular on the failure path, where it
is the fallback 7. -/
theorem score_range_amended (story : String) (svc : ServiceOutcome)
    (h : ∀ d s, svc = ServiceOutcome.success d → d.score = some s →
      1 ≤ s ∧ s ≤ 10) :
    1 ≤ (evaluateStory story svc).score.getD 7 ∧
    (evaluateStory story svc).score.getD 7 ≤ 10 := by
  cases svc with
  | failure => refine ⟨?_, ?_⟩ <;> norm_num [evaluateStory]
  | success d =>
    rcases hd : d.score with _ | s
    · simp [evaluateStory, hd]
    · have hs := h d s rfl hd
      simpa [evaluateStory, hd] using hs

/-- C7 amended witness: the failure path consumes score 7. -/
theorem score_range_amended_witness :
    1 ≤ (evaluateStory "a donut story" ServiceOutcome.failure).score.getD 7 ∧
    (evaluateStory "a donut story" ServiceOutcome.failure).score.getD 7 ≤ 10 :=
  score_range_amended "a donut story" ServiceOutcome.failure
    (fun _d _s hd _ => ServiceOutcome.noConfusion hd)

/-- C8: the outbound reply carries the end-session marker exactly when the
branch taken is terminal — the completed-state re-query or the
coupon-issuing completion; the welcome and retry prompts carry none. -/
theorem end_marker_iff_terminal (sessionData : Option SessionData)
    (msg : ChatMsg) (sender : String) (svc : ServiceOutcome) (hh mm : Nat) :
    hasEndSession (handleMessage sessionData msg sender svc hh mm).reply = true ↔
      ((∃ sd, sessionData = some sd ∧ sd.state = "completed") ∨
       (∃ sd, sessionData = some sd ∧ sd.state = "awaiting_story" ∧
          MIN_STORY_LENGTH ≤ (extractText msg.content).length)) := by
  cases sessionData with
  | none =>
    rw [handleMessage_new]
    simp [hasEndSession_makeChat]
  | some sd =>
    by_cases hc : sd.state = "completed"
    · rw [handleMessage_completed sd msg sender svc hh mm hc]
      simp [hasEndSession_makeChat, hc]
    · by_cases ha : sd.state = "awaiting_story"
      · by_cases hlen : (extractText msg.content).length < MIN_STORY_LENGTH
        · rw [handleMessage_tooShort sd msg sender svc hh mm ha hlen]
          simp only [hasEndSession_makeChat, Bool.false_eq_true, false_iff]
          push_neg
          refine ⟨?_, ?_⟩
          · intro sd2 h2
            cases h2
            exact hc
          · intro sd2 h2 _
            cases h2
            omega
        · rw [handleMessage_complete sd msg sender svc hh mm ha (Nat.not_lt.mp hlen)]
          simp only [hasEndSession_makeChat, true_iff]
          exact Or.inr ⟨sd, rfl, ha, Nat.not_lt.mp hlen⟩
      · rw [handleMessage_other sd msg sender svc hh mm hc ha]
        simp only [hasEndSession_makeChat, Bool.false_eq_true, false_iff]
        push_neg
        refine ⟨?_, ?_⟩
        · intro sd2 h2
          cases h2
          exact hc
        · intro sd2 h2 h3
          cases h2
          exact absurd h3 ha

/-- C9: the text used for validation is the stripped concatenation, in
content order, of the text items only; a message with no text items
extracts to the empty string, and in the awaiting-input state an empty
extraction falls under the minimum length and triggers the retry prompt
with no state change. -/
theorem text_extraction (content : List ContentItem) (sd : SessionData)
    (msg : ChatMsg) (sender : String) (svc : ServiceOutcome) (hh mm : Nat)
    (h1 : sd.state = "awaiting_story")
    (h2 : extractText msg.content = "") :
    extractText content = pyStrip (concatTexts (textsOf content)) ∧
    (textsOf content = [] → extractText content = "") ∧
    handleMessage (some sd) msg sender svc hh mm =
      ⟨some sd, makeChat tooShortText⟩ := by
  refine ⟨extractText_eq_concat content, ?_, ?_⟩
  · intro ht
    rw [extractText_eq_concat, ht]
    rfl
  · exact handleMessage_tooShort sd msg sender svc hh mm h1
      (by rw [h2]; decide)

/-- C9 witness: a message whose only text items are whitespace, handled in
the awaiting state, next to a content list mixing text and non-text. -/
theorem text_extraction_witness :
    extractText [ContentItem.other, ContentItem.text "a",
        ContentItem.endSession, ContentItem.text "b"] =
      pyStrip (concatTexts (textsOf [ContentItem.other, ContentItem.text "a",
        ContentItem.endSession, ContentItem.text "b"])) ∧
    (textsOf [ContentItem.other, ContentItem.text "a",
        ContentItem.endSession, ContentItem.text "b"] = [] →
      extractText [ContentItem.other, ContentItem.text "a",
        ContentItem.endSession, ContentItem.text "b"] = "") ∧
    handleMessage (some ⟨"awaiting_story", none⟩)
        ⟨[ContentItem.text "   ", ContentItem.other]⟩ "agent1"
        ServiceOutcome.failure 10 30 =
      ⟨some ⟨"awaiting_story", none⟩, makeChat tooShortText⟩ :=
  text_extraction [ContentItem.other, ContentItem.text "a",
      ContentItem.endSession, ContentItem.text "b"]
    ⟨"awaiting_story", none⟩ ⟨[ContentItem.text "   ", ContentItem.other]⟩
    "agent1" ServiceOutcome.failure 10 30 rfl (by decide)

/-- C10: a successful service response parses but may lack either key; the
handler then completes the session using the per-key defaults — score 7
and comment "Nice story!", the latter distinct from the exception-path
fallback comment — and a coupon is issued either way. -/
theorem missing_keys_defaults (sd : SessionData) (msg : ChatMsg)
    (sender : String) (hh mm : Nat) (d : EvalDict)
    (h1 : sd.state = "awaiting_story")
    (h2 : MIN_STORY_LENGTH ≤ (extractText msg.content).length) :
    (handleMessage (some sd) msg sender (ServiceOutcome.success d) hh mm).stored =
      some ⟨"completed", some (generateCoupon sender hh mm)⟩ ∧
    (handleMessage (some sd) msg sender (ServiceOutcome.success d) hh mm).reply =
      makeChat (completionText (d.comment.getD "Nice story!")
        (generateCoupon sender hh mm) (d.score.getD 7)) true ∧
    ("Nice story!" : String) ≠ "Great story! Thanks for sharing." := by
  have h := handleMessage_complete sd msg sender (ServiceOutcome.success d) hh mm h1 h2
  exact ⟨by rw [h], by rw [h]; rfl, by decide⟩

/-- C10 witness: a parsed response with both keys absent. -/
theorem missing_keys_defaults_witness :
    (handleMessage (some ⟨"awaiting_story", none⟩)
        ⟨[ContentItem.text "aaaaaaaaaaaaaaaaaaaaaaaaa"]⟩ "agent1"
        (ServiceOutcome.success ⟨none, none⟩) 10 30).stored =
      some ⟨"completed", some (generateCoupon "agent1" 10 30)⟩ ∧
    (handleMessage (some ⟨"awaiting_story", none⟩)
        ⟨[ContentItem.text "aaaaaaaaaaaaaaaaaaaaaaaaa"]⟩ "agent1"
        (ServiceOutcome.success ⟨none, none⟩) 10 30).reply =
      makeChat (completionText ((⟨none, none⟩ : EvalDict).comment.getD "Nice story!")
        (generateCoupon "agent1" 10 30)
        ((⟨none, none⟩ : EvalDict).score.getD 7)) true ∧
    ("Nice story!" : String) ≠ "Great story! Thanks for sharing." :=
  missing_keys_defaults ⟨"awaiting_story", none⟩
    ⟨[ContentItem.text "aaaaaaaaaaaaaaaaaaaaaaaaa"]⟩ "agent1" 10 30
    ⟨none, none⟩ rfl (by decide)

end Donut
